import Mathlib

/-!
Verification model of `src/dbcfeederlib/canclient.py` (HFR_high_frequency_receiving_CAN).

The Python module wraps the external `python-can` library (`can.Message`,
`can.interface.Bus`) and the optional vendor package `kuksa_can_bridge`.
External outcomes (whether a given bus interface can be opened, whether the
kuksa bridge is importable and whether its constructor succeeds, which
platform we run on) are captured in an `Env` record; everything else is a
direct transliteration of the Python control flow.  Python exceptions are
modelled with `Except PyError`.
-/

/-- Errors that can escape the modelled Python functions:
`ValueError` raised by `CANClient.__init__` for udp_multicast without a port,
and the initialization errors raised by `can.interface.Bus` /
`kuksa_can_bridge.CanClient` when a transport cannot be opened. -/
inductive PyError where
  | valueError (msg : String)
  | canInitError (iface : String)
deriving DecidableEq, Repr

/-- External, nondeterministic-to-the-program facts: the platform
(`platform.system().lower() == "windows"`), whether `can.interface.Bus`
succeeds for a given (interface, channel) pair, whether
`import kuksa_can_bridge` succeeds, and whether the kuksa `CanClient`
constructor succeeds.  The "virtual" interface is not consulted here:
per the python-can semantics (and spec 4.2) an in-process virtual bus
construction always succeeds. -/
structure Env where
  isWindows : Bool
  busOk : String → String → Bool
  kuksaAvailable : Bool
  kuksaOk : Bool

/-- The state of a `can.interface.Bus` object, recording the keyword
arguments it was constructed with and its shutdown state.
`fdArg`/`port` are `none` when the corresponding kwarg was not passed.
`shutdown_count` is ghost instrumentation counting how many times the
actual teardown body of `BusABC.shutdown` ran (python-can guards the
teardown with an `_is_shutdown` flag, making repeated shutdown a no-op). -/
structure Bus where
  interface : String
  channel : String
  bitrate : Nat
  port : Option Nat
  fdArg : Option Bool
  is_shutdown : Bool
  shutdown_count : Nat
deriving DecidableEq, Repr

/-- `can.interface.Bus(interface=..., channel=..., bitrate=..., [port=...], [fd=...])`:
opening a virtual bus always succeeds; any other interface succeeds exactly
when the environment says the underlying channel can be acquired, and raises
a CAN initialization error otherwise. -/
def can_interface_Bus (env : Env) (iface channel : String) (bitrate : Nat)
    (port : Option Nat) (fdArg : Option Bool) : Except PyError Bus :=
  if iface = "virtual" then
    .ok ⟨iface, channel, bitrate, port, fdArg, false, 0⟩
  else if env.busOk iface channel then
    .ok ⟨iface, channel, bitrate, port, fdArg, false, 0⟩
  else
    .error (.canInitError iface)

/-- python-can `BusABC.shutdown`: idempotent — the teardown body runs only on
the first call (guarded by the `_is_shutdown` flag); later calls return at
once. -/
def Bus.shutdown (b : Bus) : Bus :=
  if b.is_shutdown then b
  else { b with is_shutdown := true, shutdown_count := b.shutdown_count + 1 }

/-- Modelled from the spec: the vendor `kuksa_can_bridge.CanClient` object
(BridgeTransport), which is not part of this repository.  It owns a bus
(exposed as its `.bus` attribute, aliased into `CANClient._bus` on success). -/
structure KuksaClient where
  bus : Bus
deriving DecidableEq, Repr

/-- Modelled from the spec: constructing `kuksa_can_bridge.CanClient(...)`.
Per spec 4.2 the bridge "open" fails immediately and deterministically when
the vendor capability or hardware is unavailable (`env.kuksaOk`). -/
def kuksa_CanClient (env : Env) (channel : String) (bitrate : Nat)
    (fd : Bool) : Except PyError KuksaClient :=
  if env.kuksaOk then
    .ok ⟨⟨"kuksa_bridge", channel, bitrate, none, some fd, false, 0⟩⟩
  else
    .error (.canInitError "kuksa_bridge")

/-- Modelled from the spec: `kuksa_can_bridge.CanClient.stop`.  Per the spec
4.2 close contract ("idempotent; releases resources; safe to call multiple
times") it shuts down the bridge's bus. -/
def KuksaClient.stop (k : KuksaClient) : KuksaClient :=
  ⟨k.bus.shutdown⟩

/-- A python-can `can.Message`.  The Python constructor is called with its
default `check=False`, so field assignment is unconditional: construction
never validates the payload length against the `is_fd` flag. -/
structure CanMsg where
  arbitration_id : Nat
  data : List Nat
  is_extended_id : Bool
  is_fd : Bool
  timestamp : Option Int
deriving DecidableEq, Repr

/-- `can.Message(arbitration_id=..., data=..., is_extended_id=..., is_fd=...)`
with the library default `check=False`: a total constructor, no length check. -/
def can_Message (arbitration_id : Nat) (data : List Nat)
    (is_extended_id : Bool) (is_fd : Bool) : CanMsg :=
  ⟨arbitration_id, data, is_extended_id, is_fd, none⟩

/-- The repository's `CANMessage` wrapper: stores a `can.Message`. -/
structure CANMessage where
  msg : CanMsg
deriving DecidableEq, Repr

/-- `CANMessage.__init__(self, msg)`: assigns `self.msg = msg` and can raise
nothing — every `can.Message`, whatever its payload length, is accepted. -/
def CANMessage.init (m : CanMsg) : Except PyError CANMessage :=
  .ok ⟨m⟩

def CANMessage.get_arbitration_id (c : CANMessage) : Nat :=
  c.msg.arbitration_id

def CANMessage.get_data (c : CANMessage) : List Nat :=
  c.msg.data

def CANMessage.is_extended_id (c : CANMessage) : Bool :=
  c.msg.is_extended_id

def CANMessage.get_timestamp (c : CANMessage) : Option Int :=
  c.msg.timestamp

/-- Character-list prefix test used by the substring search below. -/
def leadsWith : List Char → List Char → Bool
  | [], _ => true
  | _ :: _, [] => false
  | a :: as, b :: bs => a == b && leadsWith as bs

/-- Substring search on character lists. -/
def containsSeq (pat : List Char) : List Char → Bool
  | [] => pat.isEmpty
  | s@(_ :: t) => leadsWith pat s || containsSeq pat t

/-- The Python test `"PCAN" in channel.upper()`. -/
def channelHasPCAN (channel : String) : Bool :=
  containsSeq "PCAN".toList channel.toUpper.toList

/-- The state of a repository `CANClient` object: the attributes assigned in
`__init__` (`self.interface`, `self.channel`, `self.bitrate`, `self.fd`,
optionally `self._kuksa_client`, and `self._bus`).  When `_kuksa_client` is
set, `bus` is the alias `self._bus = self._kuksa_client.bus`. -/
structure CANClient where
  interface : String
  channel : String
  bitrate : Nat
  fd : Bool
  kuksa_client : Option KuksaClient
  bus : Bus
deriving DecidableEq, Repr

/-- `CANClient.__init__(interface, channel, bitrate, port, fd)`, transliterated:
* `interface == "kuksa"`: try importing `kuksa_can_bridge` and constructing
  its `CanClient`; on `ImportError` fall back to python-can (Windows: pcan if
  the channel names PCAN, else virtual; otherwise socketcan, then virtual);
  on any other exception fall back to a virtual bus.  Note the pcan call in
  the `except ImportError` handler is unguarded, so its failure propagates.
* `interface == "udp_multicast"`: raise `ValueError` when `port is None`,
  else open the udp_multicast bus (failure propagates).
* any other interface: open that bus directly (failure propagates). -/
def CANClient.init (env : Env) (interface channel : String) (bitrate : Nat)
    (port : Option Nat) (fd : Bool) : Except PyError CANClient :=
  if interface = "kuksa" then
    if env.kuksaAvailable then
      match kuksa_CanClient env channel bitrate fd with
      | .ok k => .ok ⟨interface, channel, bitrate, fd, some k, k.bus⟩
      | .error _ =>
        -- except Exception: log and fall back to a virtual bus
        match can_interface_Bus env "virtual" channel bitrate none none with
        | .ok b => .ok ⟨interface, channel, bitrate, fd, none, b⟩
        | .error e => .error e
    else
      -- except ImportError: fall back to standard python-can
      if env.isWindows then
        if channelHasPCAN channel then
          match can_interface_Bus env "pcan" channel bitrate none (some fd) with
          | .ok b => .ok ⟨interface, channel, bitrate, fd, none, b⟩
          | .error e => .error e
        else
          match can_interface_Bus env "virtual" channel bitrate none none with
          | .ok b => .ok ⟨interface, channel, bitrate, fd, none, b⟩
          | .error e => .error e
      else
        match can_interface_Bus env "socketcan" channel bitrate none (some fd) with
        | .ok b => .ok ⟨interface, channel, bitrate, fd, none, b⟩
        | .error _ =>
          match can_interface_Bus env "virtual" channel bitrate none none with
          | .ok b => .ok ⟨interface, channel, bitrate, fd, none, b⟩
          | .error e => .error e
  else if interface = "udp_multicast" then
    match port with
    | none => .error (.valueError "UDP multicast requires port argument")
    | some p =>
      match can_interface_Bus env "udp_multicast" channel bitrate (some p) none with
      | .ok b => .ok ⟨interface, channel, bitrate, fd, none, b⟩
      | .error e => .error e
  else
    match can_interface_Bus env interface channel bitrate none (some fd) with
    | .ok b => .ok ⟨interface, channel, bitrate, fd, none, b⟩
    | .error e => .error e

/-- `CANClient.stop`: if `self._kuksa_client` is set, call its `stop`
(updating the aliased `self._bus`); otherwise call `self._bus.shutdown()`.
The whole body is wrapped in try/except, so `stop` itself never raises. -/
def CANClient.stop (c : CANClient) : CANClient :=
  match c.kuksa_client with
  | some k =>
    let k := k.stop
    { c with kuksa_client := some k, bus := k.bus }
  | none => { c with bus := c.bus.shutdown }

/-- The bus whose shutdown `stop` delegates to. -/
def CANClient.underlyingBus (c : CANClient) : Bus :=
  match c.kuksa_client with
  | some k => k.bus
  | none => c.bus

/-- What one call to `self._bus.recv(timeout)` did: delivered a frame,
returned `None` on timeout expiry, raised `can.CanError`, or raised some
other exception. -/
inductive RecvOutcome where
  | frame (m : CanMsg)
  | timeout
  | canError (e : String)
  | otherError (e : String)
deriving DecidableEq, Repr

/-- `CANClient.recv(timeout)`: both `except` arms catch the exception, log it
and set `msg = None`; a timeout also leaves `msg = None`; a delivered frame
(a truthy `can.Message`) is wrapped in `CANMessage`.  The function itself
never raises, hence the `Except` layer is always `.ok`. -/
def CANClient.recv (_c : CANClient) (outcome : RecvOutcome) :
    Except PyError (Option CANMessage) :=
  let msg : Option CanMsg :=
    match outcome with
    | .frame m => some m
    | .timeout => none
    | .canError _ => none
    | .otherError _ => none
  match msg with
  | some m => .ok (some ⟨m⟩)
  | none => .ok none

/-- What one call to `self._bus.send(msg)` did. -/
inductive SendOutcome where
  | success
  | canError (e : String)
  | otherError (e : String)
deriving DecidableEq, Repr

/-- `CANClient.send(arbitration_id, data, is_extended_id, is_fd)`: with
`is_fd=None` (modelled `none`) the client's configured `self.fd` is used;
the `can.Message` is built and handed to `self._bus.send`, whose exceptions
are caught and logged in both `except` arms, so the call always returns
normally.  The `.ok` payload is the frame that was passed to `_bus.send`. -/
def CANClient.send (c : CANClient) (arbitration_id : Nat) (data : List Nat)
    (is_extended_id : Bool) (is_fd : Option Bool) (outcome : SendOutcome) :
    Except PyError CanMsg :=
  let fdFlag := is_fd.getD c.fd
  let msg := can_Message arbitration_id data is_extended_id fdFlag
  match outcome with
  | .success => .ok msg
  | .canError _ => .ok msg
  | .otherError _ => .ok msg

/-- `create_kuksa_client(channel, bitrate, can_fd)`. -/
def create_kuksa_client (env : Env) (channel : String) (bitrate : Nat)
    (can_fd : Bool) : Except PyError CANClient :=
  CANClient.init env "kuksa" channel bitrate none can_fd

/-- `create_default_client(channel, bitrate, can_fd)`, transliterated:
default the channel by platform, then (inside the outer try) on Windows try
the kuksa client falling back to virtual, and otherwise try socketcan, then
the kuksa client, then virtual; the outer `except` returns a virtual-backed
client on any escaped exception. -/
def create_default_client (env : Env) (channel : Option String)
    (bitrate : Nat) (can_fd : Bool) : Except PyError CANClient :=
  let channel := channel.getD (if env.isWindows then "PCAN_USBBUS1" else "vcan0")
  let attempt : Except PyError CANClient :=
    if env.isWindows then
      match create_kuksa_client env channel bitrate can_fd with
      | .ok c => .ok c
      | .error _ => CANClient.init env "virtual" channel bitrate none can_fd
    else
      match CANClient.init env "socketcan" channel bitrate none can_fd with
      | .ok c => .ok c
      | .error _ =>
        match create_kuksa_client env channel bitrate can_fd with
        | .ok c => .ok c
        | .error _ => CANClient.init env "virtual" channel bitrate none can_fd
  match attempt with
  | .ok c => .ok c
  | .error _ => CANClient.init env "virtual" channel bitrate none can_fd

/-- The transport variant (in the spec's vocabulary) actually backing a
client: bridge when the kuksa client object is present, otherwise the
python-can interface kind of the owned bus. -/
inductive TransportKind where
  | socket
  | bridge
  | virt
  | multicast
  | pcan
  | other
deriving DecidableEq, Repr

def CANClient.transportKind (c : CANClient) : TransportKind :=
  match c.kuksa_client with
  | some _ => .bridge
  | none =>
    match c.bus.interface with
    | "socketcan" => .socket
    | "virtual" => .virt
    | "udp_multicast" => .multicast
    | "pcan" => .pcan
    | _ => .other

/-! ## Helper lemmas -/

/-- `Bus.shutdown` is idempotent: once the flag is set, later calls return
immediately. -/
theorem Bus.shutdown_shutdown (b : Bus) : b.shutdown.shutdown = b.shutdown := by
  unfold Bus.shutdown
  by_cases h : b.is_shutdown <;> simp [h]

/-- Every successful `CANClient.__init__` stores its arguments into
`self.interface`, `self.channel`, `self.bitrate`, `self.fd` unchanged. -/
theorem CANClient.init_fields {env : Env} {iface ch : String} {br : Nat}
    {port : Option Nat} {fd : Bool} {c : CANClient}
    (h : CANClient.init env iface ch br port fd = .ok c) :
    c.interface = iface ∧ c.channel = ch ∧ c.bitrate = br ∧ c.fd = fd := by
  revert h
  unfold CANClient.init
  repeat' split
  all_goals intro h
  all_goals try (injection h with h; subst h; exact ⟨rfl, rfl, rfl, rfl⟩)
  all_goals simp at h

/-- Scratch client used by concrete witnesses and counterexamples. -/
def sampleBus : Bus :=
  ⟨"virtual", "vcan0", 500000, none, none, false, 0⟩

/-- A concrete virtual-backed client. -/
def sampleClient : CANClient :=
  ⟨"virtual", "vcan0", 500000, false, none, sampleBus⟩

/-- An environment in which every non-virtual transport acquisition fails:
posix platform, no transport opens, kuksa bridge neither importable nor
constructible. -/
def envAllFail : Env :=
  ⟨false, fun _ _ => false, false, false⟩

/-! ## Claims -/

/-- Claim C3 counterexample: on an already-constructed client, a transport
I/O failure (`can.CanError` raised by `_bus.recv` / `_bus.send`) is not
surfaced as an error result: `recv` returns the normal no-frame result
`.ok none` and `send` returns normally, exactly the "logged message with a
normal None/unit return" the claim rules out. -/
theorem claim_C3_counterexample :
    CANClient.recv sampleClient (.canError "bus fault") = .ok none ∧
    CANClient.send sampleClient 1 [0] false none (.canError "bus fault") =
      .ok (can_Message 1 [0] false false) :=
  ⟨rfl, rfl⟩

/-- Claim C3 (amended): per-call I/O failures on `recv`/`send` are caught and
logged, never surfaced: `recv` yields the normal no-frame `none` result and
`send` returns normally with the frame it handed to the bus. -/
theorem claim_C3_io_failures_swallowed (c : CANClient) (e : String) (a : Nat)
    (data : List Nat) (ext : Bool) (fdq : Option Bool) :
    CANClient.recv c (.canError e) = .ok none ∧
    CANClient.recv c (.otherError e) = .ok none ∧
    CANClient.send c a data ext fdq (.canError e) =
      .ok (can_Message a data ext (fdq.getD c.fd)) ∧
    CANClient.send c a data ext fdq (.otherError e) =
      .ok (can_Message a data ext (fdq.getD c.fd)) :=
  ⟨rfl, rfl, rfl, rfl⟩

/-- Claim C4 counterexample: a genuine transport I/O failure produces a
result exactly equal to the timeout result (`.ok none`), so it is not
distinguishable from the timeout case. -/
theorem claim_C4_counterexample :
    CANClient.recv sampleClient (.canError "io failure") =
      CANClient.recv sampleClient .timeout ∧
    CANClient.recv sampleClient .timeout = .ok none :=
  ⟨rfl, rfl⟩

/-- Claim C4 (amended): timeout expiry with no pending frame yields the
normal no-frame result `none`, not an error; but a transport I/O failure
yields the very same result, indistinguishable from timeout. -/
theorem claim_C4_timeout_is_none (c : CANClient) (e : String) :
    CANClient.recv c .timeout = .ok none ∧
    CANClient.recv c (.canError e) = CANClient.recv c .timeout :=
  ⟨rfl, rfl⟩

/-- Claim C5 counterexample: a classic (non-FD) message with a 9-byte payload
and an FD message with a 65-byte payload are both accepted at construction —
`CANMessage.__init__` (wrapping `can.Message` with its default
`check=False`) rejects nothing. -/
theorem claim_C5_counterexample :
    CANMessage.init (can_Message 1 (List.replicate 9 0) false false) =
      .ok ⟨can_Message 1 (List.replicate 9 0) false false⟩ ∧
    (can_Message 1 (List.replicate 9 0) false false).data.length = 9 ∧
    (can_Message 1 (List.replicate 9 0) false false).is_fd = false ∧
    CANMessage.init (can_Message 2 (List.replicate 65 0) false true) =
      .ok ⟨can_Message 2 (List.replicate 65 0) false true⟩ ∧
    (can_Message 2 (List.replicate 65 0) false true).data.length = 65 ∧
    (can_Message 2 (List.replicate 65 0) false true).is_fd = true :=
  ⟨rfl, by decide, rfl, rfl, by decide, rfl⟩

/-- Claim C5 (amended): frame construction performs no length validation at
all — every payload, of any length, is accepted for either value of the FD
flag, because `can.Message` is built with the library default `check=False`
and `CANMessage.__init__` merely stores it. -/
theorem claim_C5_no_length_validation (a : Nat) (data : List Nat)
    (ext fd : Bool) :
    CANMessage.init (can_Message a data ext fd) =
      .ok ⟨can_Message a data ext fd⟩ :=
  rfl

/-- Claim C6: constructing a udp_multicast client with no port raises
`ValueError` immediately, for every environment (so before any transport
acquisition outcome can matter); with a port present, construction proceeds
to open the udp_multicast bus and mirrors its outcome. -/
theorem claim_C6_multicast_requires_port (env : Env) (ch : String) (br : Nat)
    (fd : Bool) :
    CANClient.init env "udp_multicast" ch br none fd =
      .error (.valueError "UDP multicast requires port argument") ∧
    ∀ p : Nat, CANClient.init env "udp_multicast" ch br (some p) fd =
      match can_interface_Bus env "udp_multicast" ch br (some p) none with
      | .ok b => .ok ⟨"udp_multicast", ch, br, fd, none, b⟩
      | .error e => .error e := by
  refine ⟨rfl, fun p => rfl⟩

/-- Claim C7: `stop` is idempotent — a second `stop` leaves the client state
exactly as after the first — the underlying transport's teardown runs exactly
once (its shutdown flag is set, and the teardown counter advances by one when
the bus was still open), and `stop` is a total function (the Python body is
wrapped in try/except, so repeated calls raise nothing). -/
theorem claim_C7_stop_idempotent (c : CANClient) :
    c.stop.stop = c.stop ∧
    c.stop.underlyingBus.is_shutdown = true ∧
    (c.underlyingBus.is_shutdown = false →
      c.stop.underlyingBus.shutdown_count = c.underlyingBus.shutdown_count + 1) := by
  rcases c with ⟨i, ch, br, fd, k, bus⟩
  cases k with
  | none =>
    refine ⟨?_, ?_, ?_⟩
    · simp [CANClient.stop, Bus.shutdown_shutdown]
    · simp [CANClient.stop, CANClient.underlyingBus, Bus.shutdown]
      by_cases h : bus.is_shutdown <;> simp [h]
    · intro h
      simp [CANClient.underlyingBus] at h
      simp [CANClient.stop, CANClient.underlyingBus, Bus.shutdown, h]
  | some k =>
    refine ⟨?_, ?_, ?_⟩
    · simp [CANClient.stop, KuksaClient.stop, Bus.shutdown_shutdown]
    · simp [CANClient.stop, CANClient.underlyingBus, KuksaClient.stop, Bus.shutdown]
      by_cases h : k.bus.is_shutdown <;> simp [h]
    · intro h
      simp [CANClient.underlyingBus] at h
      simp [CANClient.stop, CANClient.underlyingBus, KuksaClient.stop, Bus.shutdown, h]

/-- Claim C7 witness: on a concrete open client the hypotheses hold and the
teardown counter advances from 0 to 1. -/
theorem claim_C7_witness :
    sampleClient.stop.stop = sampleClient.stop ∧
    sampleClient.underlyingBus.is_shutdown = false ∧
    sampleClient.stop.underlyingBus.shutdown_count =
      sampleClient.underlyingBus.shutdown_count + 1 :=
  ⟨(claim_C7_stop_idempotent sampleClient).1, rfl,
    (claim_C7_stop_idempotent sampleClient).2.2 rfl⟩

/-- Claim C10: when `send` is called with `is_fd=None`, the transmitted
frame's FD flag is the flag the client was constructed with (`self.fd`,
which `__init__` always sets to its `fd` argument); an explicit `is_fd`
overrides it. -/
theorem claim_C10_send_fd_defaulting (c : CANClient) (a : Nat)
    (data : List Nat) (ext : Bool) (outcome : SendOutcome) :
    CANClient.send c a data ext none outcome = .ok (can_Message a data ext c.fd) ∧
    (∀ b : Bool, CANClient.send c a data ext (some b) outcome =
      .ok (can_Message a data ext b)) ∧
    (∀ env iface ch br port fdc c₀,
      CANClient.init env iface ch br port fdc = .ok c₀ → c₀.fd = fdc) := by
  refine ⟨?_, fun b => ?_, fun env iface ch br port fdc c₀ h => (CANClient.init_fields h).2.2.2⟩
  · cases outcome <;> rfl
  · cases outcome <;> rfl

/-- Claim C10 witness: concrete instance — a client constructed with
`fd=true` sends FD frames when `is_fd` is omitted, and `is_fd=false`
overrides it. -/
theorem claim_C10_witness :
    CANClient.send ⟨"virtual", "vcan0", 500000, true, none, sampleBus⟩ 3 [1, 2] false none .success =
      .ok (can_Message 3 [1, 2] false true) ∧
    CANClient.send ⟨"virtual", "vcan0", 500000, true, none, sampleBus⟩ 3 [1, 2] false (some false) .success =
      .ok (can_Message 3 [1, 2] false false) ∧
    (⟨"virtual", "vcan0", 500000, true, none,
      ⟨"virtual", "vcan0", 500000, none, some true, false, 0⟩⟩ : CANClient).fd = true :=
  ⟨(claim_C10_send_fd_defaulting ⟨"virtual", "vcan0", 500000, true, none, sampleBus⟩ 3 [1, 2] false .success).1,
    (claim_C10_send_fd_defaulting ⟨"virtual", "vcan0", 500000, true, none, sampleBus⟩ 3 [1, 2] false .success).2.1 false,
    (claim_C10_send_fd_defaulting ⟨"virtual", "vcan0", 500000, true, none, sampleBus⟩ 3 [1, 2] false .success).2.2
      envAllFail "virtual" "vcan0" 500000 none true
      ⟨"virtual", "vcan0", 500000, true, none,
        ⟨"virtual", "vcan0", 500000, none, some true, false, 0⟩⟩ rfl⟩

/-- Claim C2 counterexample: with the kuksa bridge unavailable and socketcan
failing, explicitly requesting the single transport kind "kuksa" does not
propagate the failure — construction silently succeeds with a virtual-backed
client. -/
theorem claim_C2_counterexample :
    CANClient.init envAllFail "kuksa" "can0" 500000 none false =
      .ok ⟨"kuksa", "can0", 500000, false, none,
        ⟨"virtual", "can0", 500000, none, none, false, 0⟩⟩ ∧
    CANClient.transportKind
      ⟨"kuksa", "can0", 500000, false, none,
        ⟨"virtual", "can0", 500000, none, none, false, 0⟩⟩ = .virt :=
  ⟨rfl, rfl⟩

/-- Claim C2 (amended): for every explicitly requested transport kind other
than "kuksa", construction attempts exactly that one transport and mirrors
its outcome — failure propagates, no fallback; in particular a failing
non-virtual open yields the error.  (The "kuksa" kind, by contrast, falls
back internally to socketcan/pcan/virtual.) -/
theorem claim_C2_explicit_kind_no_fallback (env : Env) (iface ch : String)
    (br : Nat) (port : Option Nat) (fd : Bool) (h : iface ≠ "kuksa") :
    (CANClient.init env iface ch br port fd =
      if iface = "udp_multicast" then
        match port with
        | none => .error (.valueError "UDP multicast requires port argument")
        | some p =>
          match can_interface_Bus env "udp_multicast" ch br (some p) none with
          | .ok b => .ok ⟨iface, ch, br, fd, none, b⟩
          | .error e => .error e
      else
        match can_interface_Bus env iface ch br none (some fd) with
        | .ok b => .ok ⟨iface, ch, br, fd, none, b⟩
        | .error e => .error e) ∧
    (iface ≠ "udp_multicast" → iface ≠ "virtual" → env.busOk iface ch = false →
      CANClient.init env iface ch br port fd = .error (.canInitError iface)) := by
  constructor
  · unfold CANClient.init
    rw [if_neg h]
  · intro hm hv hb
    unfold CANClient.init can_interface_Bus
    rw [if_neg h, if_neg hm, if_neg hv, hb]
    rfl

/-- Claim C2 witness: requesting socketcan alone in an environment where it
cannot be opened yields the propagated initialization error. -/
theorem claim_C2_witness :
    CANClient.init envAllFail "socketcan" "can0" 500000 none false =
      .error (.canInitError "socketcan") :=
  (claim_C2_explicit_kind_no_fallback envAllFail "socketcan" "can0" 500000 none false
      (by decide)).2 (by decide) (by decide) rfl

/-- Every call to `create_default_client` returns a client, and the client's
channel is the argument when given, else the platform default. -/
theorem create_default_client_channel (env : Env) (chOpt : Option String)
    (br : Nat) (fd : Bool) :
    ∃ c, create_default_client env chOpt br fd = Except.ok c ∧
      c.channel = chOpt.getD (if env.isWindows then "PCAN_USBBUS1" else "vcan0") := by
  cases hw : env.isWindows
  · cases hs : env.busOk "socketcan" (chOpt.getD "vcan0") <;>
      cases ha : env.kuksaAvailable <;>
      cases ho : env.kuksaOk <;>
      simp [create_default_client, create_kuksa_client, CANClient.init, kuksa_CanClient,
        can_interface_Bus, hw, hs, ha, ho]
  · cases ha : env.kuksaAvailable <;>
      cases ho : env.kuksaOk <;>
      cases hp : channelHasPCAN (chOpt.getD "PCAN_USBBUS1") <;>
      cases hb : env.busOk "pcan" (chOpt.getD "PCAN_USBBUS1") <;>
      simp [create_default_client, create_kuksa_client, CANClient.init, kuksa_CanClient,
        can_interface_Bus, hw, ha, ho, hp, hb]

/-- When every non-virtual acquisition fails, the returned default client is
virtual-backed. -/
theorem create_default_all_fail_virtual {env : Env} {chOpt : Option String}
    {br : Nat} {fd : Bool} {c : CANClient}
    (hall : ∀ i chn, env.busOk i chn = false) (hko : env.kuksaOk = false)
    (hc : create_default_client env chOpt br fd = .ok c) :
    c.transportKind = TransportKind.virt := by
  cases hw : env.isWindows <;>
    cases ha : env.kuksaAvailable <;>
    cases hp : channelHasPCAN (chOpt.getD "PCAN_USBBUS1") <;>
    simp [create_default_client, create_kuksa_client, CANClient.init, kuksa_CanClient,
      can_interface_Bus, hall, hko, hw, ha, hp] at hc
  all_goals subst hc
  all_goals rfl

/-- Claim C1: for every environment (platform, socketcan / kuksa-bridge /
pcan outcomes), channel, bitrate and fd flag, `create_default_client`
returns a usable client and never propagates an error; when every candidate
fails it is backed by the terminal virtual fallback. -/
theorem claim_C1_default_never_error (env : Env) (chOpt : Option String)
    (br : Nat) (fd : Bool) :
    ∃ c, create_default_client env chOpt br fd = Except.ok c ∧
      ((∀ i chn, env.busOk i chn = false) → env.kuksaOk = false →
        c.transportKind = TransportKind.virt) := by
  obtain ⟨c, hc, -⟩ := create_default_client_channel env chOpt br fd
  exact ⟨c, hc, fun hall hko => create_default_all_fail_virtual hall hko hc⟩

/-- Claim C1 witness: in the all-failing environment the default entry point
still returns a client, and it is virtual-backed. -/
theorem claim_C1_witness :
    ∃ c, create_default_client envAllFail none 500000 false = Except.ok c ∧
      c.transportKind = TransportKind.virt := by
  obtain ⟨c, hc, himp⟩ := claim_C1_default_never_error envAllFail none 500000 false
  exact ⟨c, hc, himp (fun i chn => rfl) rfl⟩

/-- Claim C8: on a posix-like platform the default selection realizes the
order Socket → Bridge → Virtual: the returned client is backed by the first
of socketcan, the kuksa bridge, and virtual whose open succeeds. -/
theorem claim_C8_posix_order (env : Env) (ch : String) (br : Nat) (fd : Bool)
    (hw : env.isWindows = false) :
    ∃ c, create_default_client env (some ch) br fd = Except.ok c ∧
      c.transportKind =
        (if env.busOk "socketcan" ch then TransportKind.socket
         else if env.kuksaAvailable && env.kuksaOk then TransportKind.bridge
         else TransportKind.virt) := by
  cases hs : env.busOk "socketcan" ch <;>
    cases ha : env.kuksaAvailable <;>
    cases ho : env.kuksaOk <;>
    simp [create_default_client, create_kuksa_client, CANClient.init, kuksa_CanClient,
      can_interface_Bus, CANClient.transportKind, hw, hs, ha, ho]

/-- Posix environment in which only socketcan opens. -/
def envSocketOnly : Env :=
  ⟨false, fun i _ => i == "socketcan", false, false⟩

/-- Claim C8 witness: on a posix platform where socketcan opens, the default
client is socket-backed (the first candidate won). -/
theorem claim_C8_witness :
    ∃ c, create_default_client envSocketOnly (some "can0") 500000 false = Except.ok c ∧
      c.transportKind = TransportKind.socket := by
  obtain ⟨c, hc, hk⟩ := claim_C8_posix_order envSocketOnly "can0" 500000 false rfl
  exact ⟨c, hc, by rw [hk]; rfl⟩

/-- Claim C9: with the channel argument omitted, `create_default_client`
defaults it to "vcan0" on non-windows platforms and "PCAN_USBBUS1" on
windows, and the returned client carries that channel. -/
theorem claim_C9_default_channel (env : Env) (br : Nat) (fd : Bool) :
    ∃ c, create_default_client env none br fd = Except.ok c ∧
      c.channel = (if env.isWindows then "PCAN_USBBUS1" else "vcan0") := by
  obtain ⟨c, hc, hch⟩ := create_default_client_channel env none br fd
  exact ⟨c, hc, hch⟩
